import Mathlib

/-!
# Verification of the autostock screening pipeline

Shallow embedding of the scoring pipeline of the `autostock` repository:

* `smart_money_screener_v2.py` — composite score, grading, pre-filter;
* `02_analyze_volume.py` — OBV, A/D line, MFI, supply/demand score;
* `03_analyze_13f.py` — institutional score;
* `final_report_generator.py` — AI score extraction and final blend.

All numeric quantities are modelled over `ℚ`.  Python's `round(x, 1)` is
round-half-to-even at one decimal place, which is modelled exactly by
`round1` below (for values that are exactly representable, as in the
concrete scenarios checked here, the binary double and the rational agree).
-/

namespace Autostock

/-- Round a rational to the nearest integer, ties to even. -/
def roundHalfEven (y : ℚ) : ℤ :=
  if y - ⌊y⌋ < 1/2 then ⌊y⌋
  else if y - ⌊y⌋ > 1/2 then ⌊y⌋ + 1
  else if ⌊y⌋ % 2 = 0 then ⌊y⌋ else ⌊y⌋ + 1

/-- Python `round(x, 1)`: round to one decimal place, ties to even
(banker's rounding, the semantics of `round` on CPython floats). -/
def round1 (x : ℚ) : ℚ :=
  (roundHalfEven (x * 10) : ℚ) / 10

/-- `smart_money_screener_v2.py`, lines 438–445: the raw weighted composite
of the six sub-scores. -/
def composite_raw (sd inst tech fund analyst rs : ℚ) : ℚ :=
  sd * 0.25 + inst * 0.20 + tech * 0.20 + fund * 0.15 +
    analyst * 0.10 + rs * 0.10

/-- `smart_money_screener_v2.py`, lines 447–459: grade from the (unrounded)
composite score. -/
def grade (composite : ℚ) : String :=
  if composite ≥ 80 then "S급 (즉시 매수)"
  else if composite ≥ 70 then "A급 (적극 매수)"
  else if composite ≥ 60 then "B급 (매수 고려)"
  else if composite ≥ 50 then "C급 (관망)"
  else if composite ≥ 40 then "D급 (주의)"
  else "F급 (회피)"

/-- Rank of a grade string, S best (5) down to F worst (0); used to state
monotonicity of the grade assignment. -/
def gradeRank (g : String) : ℕ :=
  if g = "S급 (즉시 매수)" then 5
  else if g = "A급 (적극 매수)" then 4
  else if g = "B급 (매수 고려)" then 3
  else if g = "C급 (관망)" then 2
  else if g = "D급 (주의)" then 1
  else 0

/-- `smart_money_screener_v2.py`, lines 435–461, `calculate_composite_score`:
the six sub-scores are read with `row.get`/`dict.get` defaulting to 50
(modelled by `Option.getD`), combined by the fixed weights, graded on the
unrounded composite, and the composite is rounded to one decimal place. -/
def calculate_composite_score
    (sd inst tech fund analyst rs : Option ℚ) : ℚ × String :=
  let composite := composite_raw (sd.getD 50) (inst.getD 50) (tech.getD 50)
    (fund.getD 50) (analyst.getD 50) (rs.getD 50)
  (round1 composite, grade composite)

/-- C1: the composite score is the fixed weighted sum
`0.25·sd + 0.20·inst + 0.20·tech + 0.15·fund + 0.10·analyst + 0.10·rs`
of the six stored sub-scores, rounded to one decimal place — a
deterministic pure function of the six sub-scores alone. -/
theorem composite_is_weighted_sum
    (sd inst tech fund analyst rs : ℚ) :
    (calculate_composite_score (some sd) (some inst) (some tech)
        (some fund) (some analyst) (some rs)).1 =
      round1 (0.25 * sd + 0.20 * inst + 0.20 * tech + 0.15 * fund +
        0.10 * analyst + 0.10 * rs) := by
  unfold calculate_composite_score composite_raw
  simp only [Option.getD_some]
  ring_nf

/-- C2: grade assignment is monotone non-decreasing in the composite score
(a higher composite never yields a worse grade), and the bands are exactly
`[80,∞)→S`, `[70,80)→A`, `[60,70)→B`, `[50,60)→C`, `[40,50)→D`, `(-∞,40)→F`. -/
theorem grade_monotone_and_bands :
    (∀ x y : ℚ, x ≤ y → gradeRank (grade x) ≤ gradeRank (grade y)) ∧
    (∀ c : ℚ,
      (80 ≤ c → grade c = "S급 (즉시 매수)") ∧
      (70 ≤ c → c < 80 → grade c = "A급 (적극 매수)") ∧
      (60 ≤ c → c < 70 → grade c = "B급 (매수 고려)") ∧
      (50 ≤ c → c < 60 → grade c = "C급 (관망)") ∧
      (40 ≤ c → c < 50 → grade c = "D급 (주의)") ∧
      (c < 40 → grade c = "F급 (회피)")) := by
  constructor
  · intro x y hxy
    unfold grade
    split_ifs <;> first | decide | (exfalso; linarith)
  · intro c
    refine ⟨?_, ?_, ?_, ?_, ?_, ?_⟩ <;> intros <;> unfold grade <;>
      split_ifs <;> first | rfl | linarith

/-- Witness for `grade_monotone_and_bands` at concrete inputs. -/
theorem grade_monotone_and_bands_witness :
    ((39.9 : ℚ) ≤ 40 ∧ gradeRank (grade (39.9 : ℚ)) ≤ gradeRank (grade (40 : ℚ))) ∧
    ((80 : ℚ) ≤ 85 ∧ grade (85 : ℚ) = "S급 (즉시 매수)") :=
  ⟨⟨by norm_num, grade_monotone_and_bands.1 39.9 40 (by norm_num)⟩,
   ⟨by norm_num, (grade_monotone_and_bands.2 85).1 (by norm_num)⟩⟩

/-- The raw composite of the C9 scenario evaluates to exactly 59.25. -/
lemma composite_raw_scenario : composite_raw 60 70 55 65 50 45 = 59.25 := by
  norm_num [composite_raw]

/-- `round1` sends the exact tie 59.25 to even, giving 59.2. -/
lemma round1_59_25 : round1 (59.25 : ℚ) = 59.2 := by
  have hf : ⌊(1185/2 : ℚ)⌋ = 592 :=
    Int.floor_eq_iff.mpr ⟨by norm_num, by norm_num⟩
  have hr : roundHalfEven (1185/2) = 592 := by
    unfold roundHalfEven
    rw [hf]
    norm_num
  unfold round1
  rw [show (59.25 : ℚ) * 10 = 1185/2 by norm_num, hr]
  norm_num

/-- The C9 scenario's full screener record: composite stored as 59.2,
grade C. -/
lemma calculate_composite_score_scenario :
    calculate_composite_score (some 60) (some 70) (some 55) (some 65)
        (some 50) (some 45) = (59.2, "C급 (관망)") := by
  show (round1 (composite_raw ((some (60:ℚ)).getD 50) ((some (70:ℚ)).getD 50)
      ((some (55:ℚ)).getD 50) ((some (65:ℚ)).getD 50) ((some (50:ℚ)).getD 50)
      ((some (45:ℚ)).getD 50)),
    grade (composite_raw ((some (60:ℚ)).getD 50) ((some (70:ℚ)).getD 50)
      ((some (55:ℚ)).getD 50) ((some (65:ℚ)).getD 50) ((some (50:ℚ)).getD 50)
      ((some (45:ℚ)).getD 50))) = (59.2, "C급 (관망)")
  simp only [Option.getD_some, composite_raw_scenario]
  rw [round1_59_25]
  unfold grade
  norm_num

/-- C9 counterexample: at sub-scores 60/70/55/65/50/45 the stored composite
is 59.2, not the 59.3 the claim states — the exact weighted sum is 59.25
(the IEEE-double evaluation in the code is also exactly 59.25, every term
being exactly representable) and Python's `round` resolves the tie to even,
giving 59.2. -/
theorem scenario_composite_not_59_3 :
    (calculate_composite_score (some 60) (some 70) (some 55) (some 65)
        (some 50) (some 45)).1 = 59.2 ∧ (59.2 : ℚ) ≠ 59.3 := by
  constructor
  · rw [calculate_composite_score_scenario]
  · norm_num

/-- C9 (amended): at sub-scores 60/70/55/65/50/45 the raw composite is
exactly 59.25, which the code's rounding (round-half-to-even at one
decimal) stores as 59.2, and the assigned grade is the C tier. -/
theorem scenario_composite_59_25_grade_C :
    composite_raw 60 70 55 65 50 45 = 59.25 ∧
    calculate_composite_score (some 60) (some 70) (some 55) (some 65)
        (some 50) (some 45) = (59.2, "C급 (관망)") :=
  ⟨composite_raw_scenario, calculate_composite_score_scenario⟩

/-! ## Institutional analysis (`03_analyze_13f.py`) -/

/-- Clamp to `[0, 100]`, the `max(0, min(100, score))` idiom used by every
scorer in the pipeline. -/
def clamp0100 (x : ℚ) : ℚ := max 0 (min 100 x)

/-- `03_analyze_13f.py`, lines 104–129: institutional score from ownership
percentage, insider buy/sell counts and short percent of float.  Note the
short-interest chain tests `short_pct > 0.1` *before* `short_pct > 0.2`,
so the `- 20` branch is unreachable. -/
def institutional_score (inst_pct : ℚ) (buys sells : ℕ) (short_pct : ℚ) : ℚ :=
  let score : ℚ := 50
  let score := if inst_pct > 0.8 then score + 15
    else if inst_pct > 0.6 then score + 10
    else if inst_pct < 0.3 then score - 10
    else score
  let score := if buys > sells then score + 15
    else if sells > buys then score - 10
    else score
  let score := if short_pct < 0.03 then score + 5
    else if short_pct > 0.1 then score - 10
    else if short_pct > 0.2 then score - 20
    else score
  clamp0100 score

/-- C3 (code bug evaluation): a ticker with 50% institutional ownership,
no insider activity and short interest at 25% of float scores 40 — the
short-interest deduction applied is 10, not the 20 the claim (and the
dead `score -= 20` branch's evident intent) calls for, because the
`elif short_pct > 0.1` test shadows the `elif short_pct > 0.2` test. -/
theorem institutional_score_short_25pct :
    institutional_score (1/2) 0 0 (1/4) = 40 ∧ (40 : ℚ) ≠ 30 := by
  constructor
  · unfold institutional_score clamp0100
    norm_num
  · norm_num

/-! ## Final report blend (`final_report_generator.py`) -/

/-- `final_report_generator.py`, line 158: the AI bonus rescaled into the
±20-point band, positive scores against the 25 ceiling, non-positive
against 20. -/
def ai_weighted_calc (ai_score : ℚ) : ℚ :=
  if ai_score > 0 then ai_score / 25 * 20 else ai_score / 20 * 20

/-- `final_report_generator.py`, lines 159–162: quant score weighted 80%
plus the rescaled AI bonus, clamped to `[0, 100]`. -/
def final_score_calc (quant_score ai_score : ℚ) : ℚ :=
  clamp0100 (quant_score * 0.8 + ai_weighted_calc ai_score)

/-- C6: the blend computes `ai_weighted = (ai/25)*20` when `ai > 0` and
`(ai/20)*20` otherwise, and `final = clamp(quant*0.8 + ai_weighted, 0, 100)`;
in particular `ai = 0` gives exactly `clamp(quant*0.8, 0, 100)`. -/
theorem final_blend_formula :
    (∀ quant ai : ℚ, final_score_calc quant ai =
      max 0 (min 100 (quant * 0.8 +
        (if ai > 0 then ai / 25 * 20 else ai / 20 * 20)))) ∧
    (∀ quant : ℚ, final_score_calc quant 0 = max 0 (min 100 (quant * 0.8))) := by
  constructor
  · intro quant ai
    rfl
  · intro quant
    unfold final_score_calc ai_weighted_calc clamp0100
    norm_num

/-! ## AI score extraction (`final_report_generator.py`, lines 66–116) -/

/-- Python's `pat in hay` substring test. -/
def strContains (hay pat : String) : Bool := decide (pat.data <:+: hay.data)

/-- Python's `str.lower()` (ASCII case map; the keyword lists below are
lowercase ASCII and Korean, which has no case). -/
def pyLower (s : String) : String := ⟨s.data.map Char.toLower⟩

def buy_keywords : List String := ["buy", "매수", "purchase", "acquisition"]

def strong_buy_keywords : List String :=
  ["strong buy", "적극 매수", "aggressive", "high conviction"]

def sell_keywords : List String := ["sell", "매도", "avoid", "caution", "risk"]

def positive_words : List String :=
  ["opportunity", "growth", "upside", "potential", "기회", "성장", "상승", "잠재력"]

def negative_words : List String :=
  ["risk", "concern", "decline", "downside", "리스크", "우려", "하락", "약세"]

/-- Lines 87–98: the exclusive strong-buy / buy / sell / hold branch over
the lowercased summary. -/
def ai_branch (sl : String) : Int × String :=
  if strong_buy_keywords.any (fun k => strContains sl k) then (20, "Strong Buy")
  else if buy_keywords.any (fun k => strContains sl k) then (10, "Buy")
  else if sell_keywords.any (fun k => strContains sl k) then (-10, "Sell")
  else (0, "Hold")

/-- Lines 100–111: sentiment adjustment, +5 when positive-word hits exceed
negative-word hits, −5 in the reverse case. -/
def sentiment_adjust (sl : String) : Int :=
  let positive_count := (positive_words.filter (fun w => strContains sl w)).length
  let negative_count := (negative_words.filter (fun w => strContains sl w)).length
  if positive_count > negative_count then 5
  else if negative_count > positive_count then -5
  else 0

/-- `final_report_generator.py`, lines 66–116, `calculate_ai_score`:
placeholder summaries short-circuit to `(0, "Hold")`; otherwise branch on
keywords, adjust by sentiment, clamp to `[-20, 25]`. -/
def calculate_ai_score (summary : String) : Int × String :=
  if summary = "" ∨ summary = "API Key Missing" ∨ summary = "Analysis Failed"
  then (0, "Hold")
  else
    let sl := pyLower summary
    let b := ai_branch sl
    (max (-20) (min 25 (b.1 + sentiment_adjust sl)), b.2)

/-- C7: the AI score is a pure function of the summary text: empty text or
"API Key Missing" give `(0, "Hold")`, any other text gets the exclusive
keyword branch plus the sentiment adjustment clamped to `[-20, 25]` (the
third placeholder "Analysis Failed" short-circuits in the code, but the
keyword scan yields `(0, "Hold")` on it anyway), and the returned score
always lies in `[-20, 25]`. -/
theorem ai_score_extraction :
    (∀ s : String, calculate_ai_score s =
      if s = "" ∨ s = "API Key Missing" then ((0 : Int), "Hold")
      else (max (-20) (min 25 ((ai_branch (pyLower s)).1 + sentiment_adjust (pyLower s))),
            (ai_branch (pyLower s)).2)) ∧
    (∀ s : String, -20 ≤ (calculate_ai_score s).1 ∧ (calculate_ai_score s).1 ≤ 25) := by
  constructor
  · intro s
    by_cases h1 : s = ""
    · subst h1; decide
    · by_cases h2 : s = "API Key Missing"
      · subst h2; decide
      · by_cases h3 : s = "Analysis Failed"
        · subst h3
          have hb : ai_branch (pyLower "Analysis Failed") = (0, "Hold") := by
            decide
          have hs : sentiment_adjust (pyLower "Analysis Failed") = 0 := by
            decide
          unfold calculate_ai_score
          rw [if_pos (Or.inr (Or.inr rfl)), if_neg (by simp), hb, hs]
          simp [min_def, max_def]
        · unfold calculate_ai_score
          rw [if_neg (by simp [h1, h2, h3]), if_neg (by simp [h1, h2])]
  · intro s
    unfold calculate_ai_score
    split
    · exact ⟨by norm_num, by norm_num⟩
    · exact ⟨le_max_left _ _, max_le (by norm_num) (min_le_left _ _)⟩

/-! ## Volume / supply-demand analysis (`02_analyze_volume.py`) -/

/-- One row of the daily price table (`prices.csv`): date (as an ordinal),
close, high, low, volume. -/
structure PriceRow where
  date : ℤ
  current_price : ℚ
  high : ℚ
  low : ℚ
  volume : ℚ
deriving DecidableEq

/-- `round(x, 2)`, two decimal places, same tie rule as `round1`. -/
def round2 (x : ℚ) : ℚ :=
  (roundHalfEven (x * 100) : ℚ) / 100

/-- OBV recursion for the rows after the first: previous OBV value and
previous close threaded through. -/
def obvAux (prev prevPrice : ℚ) : List PriceRow → List ℚ
  | [] => []
  | r :: rest =>
    let v := if r.current_price > prevPrice then prev + r.volume
      else if r.current_price < prevPrice then prev - r.volume
      else prev
    v :: obvAux v r.current_price rest

/-- `02_analyze_volume.py`, lines 46–61, `calculate_obv`: on-balance volume,
starting at 0. -/
def calculate_obv : List PriceRow → List ℚ
  | [] => []
  | r :: rest => 0 :: obvAux 0 r.current_price rest

/-- The close-location-value of one day, with the `high - low` denominator
replaced by 0.0001 when it is zero (`high_low.replace(0, 0.0001)`). -/
def clvOf (r : PriceRow) : ℚ :=
  let high_low := r.high - r.low
  let high_low := if high_low = 0 then 0.0001 else high_low
  ((r.current_price - r.low) - (r.high - r.current_price)) / high_low

/-- Running cumulative sum (`Series.cumsum`). -/
def cumsumFrom (acc : ℚ) : List ℚ → List ℚ
  | [] => []
  | x :: xs => (acc + x) :: cumsumFrom (acc + x) xs

/-- `02_analyze_volume.py`, lines 63–74, `calculate_ad_line`:
accumulation/distribution line, the cumulative sum of CLV·volume. -/
def calculate_ad_line (df : List PriceRow) : List ℚ :=
  cumsumFrom 0 (df.map (fun r => clvOf r * r.volume))

/-- Typical price `(high + low + close) / 3`. -/
def typicalPrice (r : PriceRow) : ℚ :=
  (r.high + r.low + r.current_price) / 3

/-- Positive/negative money flow per day after the first; a day whose
typical price did not move contributes to neither flow, matching
`money_flow.where(delta > 0, 0)` / `.where(delta < 0, 0)`. -/
def moneyFlowsAux (prevTp : ℚ) : List PriceRow → List (ℚ × ℚ)
  | [] => []
  | r :: rest =>
    let tp := typicalPrice r
    let mf := tp * r.volume
    ((if tp > prevTp then mf else 0), (if tp < prevTp then mf else 0)) ::
      moneyFlowsAux tp rest

/-- Money-flow pairs for the whole series; the first day's `diff()` is NaN,
so both of its flows are 0 (the `where` conditions are false on NaN). -/
def moneyFlows : List PriceRow → List (ℚ × ℚ)
  | [] => []
  | r :: rest => (0, 0) :: moneyFlowsAux (typicalPrice r) rest

/-- `Series.rolling(period).sum()`: `none` where the window is incomplete
(pandas NaN), the window sum elsewhere. -/
def rollingSum (period : ℕ) (l : List ℚ) : List (Option ℚ) :=
  (List.range l.length).map fun i =>
    if period ≤ i + 1 then some (((l.take (i + 1)).drop (i + 1 - period)).sum)
    else none

/-- `Series.rolling(period).mean()`. -/
def rollingMean (period : ℕ) (l : List ℚ) : List (Option ℚ) :=
  (rollingSum period l).map fun o => o.map fun s => s / period

/-- One MFI value from the 14-day positive and negative money-flow sums,
with the zero negative flow replaced by 0.0001
(`negative_mf.replace(0, 0.0001)`). -/
def mfiVal (pos neg : ℚ) : ℚ :=
  100 - 100 / (1 + pos / (if neg = 0 then 0.0001 else neg))

/-- `02_analyze_volume.py`, lines 88–103, `calculate_mfi`: money flow index
over a 14-day rolling window; `none` where either window is incomplete. -/
def calculate_mfi (df : List PriceRow) : List (Option ℚ) :=
  let fl := moneyFlows df
  let positive_mf := rollingSum 14 (fl.map Prod.fst)
  let negative_mf := rollingSum 14 (fl.map Prod.snd)
  List.zipWith (fun po no =>
    match po, no with
    | some p, some n => some (mfiVal p n)
    | _, _ => none) positive_mf negative_mf

/-- `02_analyze_volume.py`, lines 76–78, `calculate_volume_sma`. -/
def calculate_volume_sma (df : List PriceRow) : List (Option ℚ) :=
  rollingMean 20 (df.map PriceRow.volume)

/-- `02_analyze_volume.py`, lines 80–86, `detect_volume_surge`: volume above
twice its 20-day SMA; comparison with NaN is false. -/
def detect_volume_surge (df : List PriceRow) : List Bool :=
  List.zipWith (fun v o =>
    match o with
    | some s => decide (v > s * 2)
    | none => false) (df.map PriceRow.volume) (calculate_volume_sma df)

/-- The last `n` entries of a list (`Series.tail(n)`). -/
def tailN (n : ℕ) (l : List α) : List α := l.drop (l.length - n)

/-- `02_analyze_volume.py`, lines 160–197: the supply/demand score from the
OBV change, A/D change, volume ratio and current MFI, clamped to `[0,100]`. -/
def supply_demand_score_calc (obv_change ad_change vol_ratio mfi_current : ℚ) : ℚ :=
  let score : ℚ := 50
  let score := if obv_change > 10 then score + 15
    else if obv_change > 5 then score + 10
    else if obv_change < -10 then score - 15
    else if obv_change < -5 then score - 10
    else score
  let score := if ad_change > 10 then score + 15
    else if ad_change > 5 then score + 10
    else if ad_change < -10 then score - 15
    else if ad_change < -5 then score - 10
    else score
  let score := if vol_ratio > 1.5 then score + 10
    else if vol_ratio > 1.2 then score + 5
    else if vol_ratio < 0.7 then score - 5
    else score
  let score := if mfi_current > 70 then score + 5
    else if mfi_current < 30 then score - 5
    else score
  clamp0100 score

/-- `02_analyze_volume.py`, lines 199–209: accumulation stage label. -/
def supply_demand_stage (score : ℚ) : String :=
  if score ≥ 70 then "Strong Accumulation"
  else if score ≥ 55 then "Accumulation"
  else if score ≥ 45 then "Neutral"
  else if score ≥ 30 then "Distribution"
  else "Strong Distribution"

/-- The record returned by `analyze_supply_demand` (lines 211–223). -/
structure SDRecord where
  date : ℤ
  obv : ℚ
  obv_change_20d : ℚ
  ad_line : ℚ
  ad_change_20d : ℚ
  mfi : ℚ
  vol_ratio_5d_20d : ℚ
  surge_count_5d : ℕ
  surge_count_20d : ℕ
  supply_demand_score : ℚ
  supply_demand_stage : String
deriving DecidableEq

/-- `02_analyze_volume.py`, lines 110–223, `analyze_supply_demand`: returns
`none` for histories shorter than 30 rows, otherwise sorts by date, computes
all indicators, and always returns one record. -/
def analyze_supply_demand (df0 : List PriceRow) : Option SDRecord :=
  if df0.length < 30 then none
  else
    let df := df0.mergeSort fun a b => decide (a.date ≤ b.date)
    let obv := calculate_obv df
    let ad_line := calculate_ad_line df
    let mfi := calculate_mfi df
    let vol_surge := detect_volume_surge df
    let latest := df.getLastD ⟨0, 0, 0, 0, 0⟩
    let obv_change :=
      if 20 ≤ obv.length ∧ obv.getD (obv.length - 20) 0 ≠ 0 then
        (obv.getLastD 0 - obv.getD (obv.length - 20) 0) /
          |obv.getD (obv.length - 20) 0| * 100
      else 0
    let ad_change :=
      if 20 ≤ ad_line.length ∧ ad_line.getD (ad_line.length - 20) 0 ≠ 0 then
        (ad_line.getLastD 0 - ad_line.getD (ad_line.length - 20) 0) /
          |ad_line.getD (ad_line.length - 20) 0| * 100
      else 0
    let vol_ratio :=
      if 20 ≤ df.length then
        let vol_5d := (tailN 5 (df.map PriceRow.volume)).sum / 5
        let vol_20d := (tailN 20 (df.map PriceRow.volume)).sum / 20
        if vol_20d > 0 then vol_5d / vol_20d else 1
      else 1
    let surge_count_5d :=
      if 20 ≤ vol_surge.length then (tailN 5 vol_surge).count true else 0
    let surge_count_20d :=
      if 20 ≤ vol_surge.length then (tailN 20 vol_surge).count true else 0
    let mfi_current :=
      match mfi.getLastD none with
      | some v => v
      | none => 50
    let score := supply_demand_score_calc obv_change ad_change vol_ratio mfi_current
    some {
      date := latest.date
      obv := obv.getLastD 0
      obv_change_20d := round2 obv_change
      ad_line := ad_line.getLastD 0
      ad_change_20d := round2 ad_change
      mfi := round1 mfi_current
      vol_ratio_5d_20d := round2 vol_ratio
      surge_count_5d := surge_count_5d
      surge_count_20d := surge_count_20d
      supply_demand_score := round1 score
      supply_demand_stage := supply_demand_stage score }

/-- `02_analyze_volume.py`, lines 225–252, `VolumeAnalyzer.run` restricted
to its per-ticker loop: the price table grouped by ticker (tickers are
`unique()`), short histories skipped with `continue`, one output row per
analysis that returns a result. -/
def volumeAnalyzer_run (data : List (String × List PriceRow)) :
    List (String × SDRecord) :=
  data.filterMap fun p =>
    if p.2.length < 30 then none
    else (analyze_supply_demand p.2).map fun a => (p.1, a)

lemma analyze_supply_demand_eq_none_iff (df : List PriceRow) :
    analyze_supply_demand df = none ↔ df.length < 30 := by
  unfold analyze_supply_demand
  split_ifs with h
  · simp [h]
  · simp [h]

lemma analyze_supply_demand_isSome (df : List PriceRow)
    (h : ¬ df.length < 30) : ∃ a, analyze_supply_demand df = some a := by
  unfold analyze_supply_demand
  rw [if_neg h]
  exact ⟨_, rfl⟩

/-- Tickers absent from the input never appear in the volume analyzer's
output. -/
lemma volumeAnalyzer_run_filter_nil (data : List (String × List PriceRow))
    (t : String) (h : t ∉ data.map Prod.fst) :
    (volumeAnalyzer_run data).filter (fun p => p.1 == t) = [] := by
  induction data with
  | nil => rfl
  | cons hd tl ih =>
    obtain ⟨t', rows'⟩ := hd
    simp only [List.map_cons, List.mem_cons, not_or] at h
    obtain ⟨hne, htl⟩ := h
    unfold volumeAnalyzer_run
    rw [List.filterMap_cons]
    by_cases h30 : rows'.length < 30
    · rw [if_pos h30]
      exact ih htl
    · rw [if_neg h30]
      obtain ⟨a, ha⟩ := analyze_supply_demand_isSome rows' h30
      rw [ha]
      simp only [Option.map_some']
      rw [List.filter_cons]
      have : ((t', a).1 == t) = false := by
        simpa using fun hc => hne hc.symm
      rw [this]
      exact ih htl

/-- C4: a ticker whose price history has fewer than 30 rows is excluded
from the volume analyzer's output entirely (`analyze_supply_demand`
returns no record), and a ticker with 30 or more rows yields exactly one
output record. -/
theorem volume_run_min_30_rows :
    (∀ df : List PriceRow, analyze_supply_demand df = none ↔ df.length < 30) ∧
    (∀ data : List (String × List PriceRow), (data.map Prod.fst).Nodup →
      ∀ t rows, (t, rows) ∈ data →
        ((volumeAnalyzer_run data).filter (fun p => p.1 == t)).length =
          if rows.length < 30 then 0 else 1) := by
  constructor
  · exact analyze_supply_demand_eq_none_iff
  · intro data
    induction data with
    | nil => intro _ t rows h; simp at h
    | cons hd tl ih =>
      intro hnd t rows hmem
      obtain ⟨t', rows'⟩ := hd
      simp only [List.map_cons, List.nodup_cons] at hnd
      obtain ⟨hnotin, hnd'⟩ := hnd
      rcases List.mem_cons.mp hmem with heq | hmem'
      · obtain ⟨rfl, rfl⟩ := Prod.mk.injEq .. ▸ heq
        unfold volumeAnalyzer_run
        rw [List.filterMap_cons]
        by_cases h30 : rows.length < 30
        · rw [if_pos h30, if_pos h30]
          have := volumeAnalyzer_run_filter_nil tl t hnotin
          unfold volumeAnalyzer_run at this
          rw [this]
          rfl
        · rw [if_neg h30, if_neg h30]
          obtain ⟨a, ha⟩ := analyze_supply_demand_isSome rows h30
          rw [ha]
          simp only [Option.map_some']
          rw [List.filter_cons]
          have hbeq : ((t, a).1 == t) = true := by simp
          rw [hbeq]
          have := volumeAnalyzer_run_filter_nil tl t hnotin
          unfold volumeAnalyzer_run at this
          simp [this]
      · have htne : t ≠ t' := by
          intro hc
          exact hnotin (hc ▸ List.mem_map_of_mem Prod.fst hmem')
        unfold volumeAnalyzer_run
        rw [List.filterMap_cons]
        by_cases h30 : rows'.length < 30
        · rw [if_pos h30]
          exact ih hnd' t rows hmem'
        · rw [if_neg h30]
          obtain ⟨a, ha⟩ := analyze_supply_demand_isSome rows' h30
          rw [ha]
          simp only [Option.map_some']
          rw [List.filter_cons]
          have : ((t', a).1 == t) = false := by
            simpa using fun hc => htne hc.symm
          rw [this]
          exact ih hnd' t rows hmem'

/-- Witness for `volume_run_min_30_rows` on a one-ticker table with an
empty history. -/
theorem volume_run_min_30_rows_witness :
    (([("A", ([] : List PriceRow))].map Prod.fst).Nodup ∧
      ("A", ([] : List PriceRow)) ∈ [("A", ([] : List PriceRow))]) ∧
    ((volumeAnalyzer_run [("A", [])]).filter (fun p => p.1 == "A")).length =
      (if ([] : List PriceRow).length < 30 then 0 else 1) :=
  ⟨⟨by simp, by simp⟩,
    volume_run_min_30_rows.2 [("A", [])] (by simp) "A" [] (by simp)⟩

/-! ## The per-ticker enrichment scores (`smart_money_screener_v2.py`) -/

/-- `smart_money_screener_v2.py`, lines 157–188: technical score from RSI,
last two MACD-histogram values (`hist_len_ge2` models
`len(macd_histogram) >= 2`), the moving-average signal and the cross
signal, clamped to `[0, 100]`. -/
def technical_score_calc (rsi macd_hist_current macd_hist_prev : ℚ)
    (hist_len_ge2 : Bool) (ma_signal cross_signal : String) : ℚ :=
  let score : ℚ := 50
  let score := if 40 ≤ rsi ∧ rsi ≤ 60 then score + 10
    else if rsi < 30 then score + 15
    else if rsi > 70 then score - 5
    else score
  let score := if hist_len_ge2 then
      if macd_hist_current > 0 ∧ macd_hist_prev < 0 then score + 15
      else if macd_hist_current > 0 then score + 8
      else if macd_hist_current < 0 then score - 5
      else score
    else score
  let score := if ma_signal = "Bullish" then score + 15
    else if ma_signal = "Bearish" then score - 10
    else score
  let score := if cross_signal = "Golden Cross" then score + 10
    else if cross_signal = "Death Cross" then score - 15
    else score
  clamp0100 score

/-- `smart_money_screener_v2.py`, lines 239–270: fundamental score from
P/E, revenue growth and ROE, clamped to `[0, 100]`. -/
def fundamental_score_calc (pe_ratio revenue_growth roe : ℚ) : ℚ :=
  let score : ℚ := 50
  let score := if 0 < pe_ratio ∧ pe_ratio < 15 then score + 15
    else if 15 ≤ pe_ratio ∧ pe_ratio < 25 then score + 10
    else if pe_ratio > 40 then score - 10
    else if pe_ratio < 0 then score - 15
    else score
  let score := if revenue_growth > 0.2 then score + 15
    else if revenue_growth > 0.1 then score + 10
    else if revenue_growth > 0 then score + 5
    else if revenue_growth < 0 then score - 10
    else score
  let score := if roe > 0.2 then score + 10
    else if roe > 0.1 then score + 5
    else if roe < 0 then score - 10
    else score
  clamp0100 score

/-- `smart_money_screener_v2.py`, lines 336–339: the recommendation-key
bonus table, defaulting to 0 for unknown keys. -/
def rec_map (recommendation : String) : ℚ :=
  if recommendation = "strongBuy" then 25
  else if recommendation = "buy" then 20
  else if recommendation = "hold" then 0
  else if recommendation = "sell" then -15
  else if recommendation = "strongSell" then -25
  else 0

/-- `smart_money_screener_v2.py`, lines 332–354: analyst score from the
consensus recommendation and upside to target, clamped to `[0, 100]`. -/
def analyst_score_calc (recommendation : String) (upside : ℚ) : ℚ :=
  let score := 50 + rec_map recommendation
  let score := if upside > 30 then score + 20
    else if upside > 20 then score + 15
    else if upside > 10 then score + 10
    else if upside > 0 then score + 5
    else if upside < -10 then score - 15
    else score
  clamp0100 score

/-- `smart_money_screener_v2.py`, lines 403–423: relative-strength score
from the 20-day and 60-day excess returns over SPY, clamped to `[0, 100]`. -/
def rs_score_calc (rs_20d rs_60d : ℚ) : ℚ :=
  let score : ℚ := 50
  let score := if rs_20d > 10 then score + 25
    else if rs_20d > 5 then score + 15
    else if rs_20d > 0 then score + 8
    else if rs_20d < -10 then score - 20
    else if rs_20d < -5 then score - 10
    else score
  let score := if rs_60d > 15 then score + 15
    else if rs_60d > 5 then score + 8
    else if rs_60d < -15 then score - 15
    else score
  clamp0100 score

lemma clamp0100_mem (x : ℚ) : 0 ≤ clamp0100 x ∧ clamp0100 x ≤ 100 :=
  ⟨le_max_left 0 _, max_le (by norm_num) (min_le_left _ _)⟩

/-- C5: every computed sub-score — supply/demand, institutional, technical,
fundamental, analyst and relative strength — lies in `[0, 100]` for every
input, including arbitrary RSI and revenue-growth values, because each
scorer ends in the `max(0, min(100, score))` clamp. -/
theorem sub_scores_bounded :
    (∀ oc ac vr mc : ℚ, 0 ≤ supply_demand_score_calc oc ac vr mc ∧
      supply_demand_score_calc oc ac vr mc ≤ 100) ∧
    (∀ (ip : ℚ) (b s : ℕ) (sp : ℚ), 0 ≤ institutional_score ip b s sp ∧
      institutional_score ip b s sp ≤ 100) ∧
    (∀ (rsi mc mp : ℚ) (h2 : Bool) (ms cs : String),
      0 ≤ technical_score_calc rsi mc mp h2 ms cs ∧
      technical_score_calc rsi mc mp h2 ms cs ≤ 100) ∧
    (∀ pe rg roe : ℚ, 0 ≤ fundamental_score_calc pe rg roe ∧
      fundamental_score_calc pe rg roe ≤ 100) ∧
    (∀ (rec : String) (up : ℚ), 0 ≤ analyst_score_calc rec up ∧
      analyst_score_calc rec up ≤ 100) ∧
    (∀ r20 r60 : ℚ, 0 ≤ rs_score_calc r20 r60 ∧ rs_score_calc r20 r60 ≤ 100) :=
  ⟨fun _ _ _ _ => clamp0100_mem _, fun _ _ _ _ => clamp0100_mem _,
   fun _ _ _ _ _ _ => clamp0100_mem _, fun _ _ _ => clamp0100_mem _,
   fun _ _ => clamp0100_mem _, fun _ _ => clamp0100_mem _⟩

/-! ## Totality of the A/D line and MFI (C10) -/

lemma cumsumFrom_length (acc : ℚ) (l : List ℚ) :
    (cumsumFrom acc l).length = l.length := by
  induction l generalizing acc with
  | nil => rfl
  | cons x xs ih => simp [cumsumFrom, ih]

lemma moneyFlowsAux_length (p : ℚ) (l : List PriceRow) :
    (moneyFlowsAux p l).length = l.length := by
  induction l generalizing p with
  | nil => rfl
  | cons r rest ih => simp [moneyFlowsAux, ih]

lemma moneyFlows_length (l : List PriceRow) :
    (moneyFlows l).length = l.length := by
  cases l with
  | nil => rfl
  | cons r rest => simp [moneyFlows, moneyFlowsAux_length]

lemma rollingSum_length (p : ℕ) (l : List ℚ) :
    (rollingSum p l).length = l.length := by
  simp [rollingSum]

/-- C10: the A/D-line and MFI computations are total — they return one
value per input row for every series — and every division they perform
uses the epsilon-guarded denominator, which is never zero: a day with
`high = low` uses the 0.0001 denominator in CLV, and a 14-day window with
zero negative money flow uses the 0.0001 denominator in MFI. -/
theorem ad_mfi_total_and_epsilon :
    (∀ df : List PriceRow, (calculate_ad_line df).length = df.length ∧
      (calculate_mfi df).length = df.length) ∧
    (∀ r : PriceRow,
      (if r.high - r.low = 0 then (0.0001 : ℚ) else r.high - r.low) ≠ 0) ∧
    (∀ r : PriceRow, r.high = r.low →
      clvOf r = ((r.current_price - r.low) - (r.high - r.current_price)) / 0.0001) ∧
    (∀ n : ℚ, (if n = 0 then (0.0001 : ℚ) else n) ≠ 0) ∧
    (∀ p : ℚ, mfiVal p 0 = 100 - 100 / (1 + p / 0.0001)) := by
  refine ⟨?_, ?_, ?_, ?_, ?_⟩
  · intro df
    constructor
    · simp [calculate_ad_line, cumsumFrom_length]
    · simp [calculate_mfi, List.length_zipWith, rollingSum_length,
        moneyFlows_length]
  · intro r
    split_ifs with h
    · norm_num
    · exact h
  · intro r h
    have hz : r.high - r.low = 0 := by rw [h, sub_self]
    show (r.current_price - r.low - (r.high - r.current_price)) /
        (if r.high - r.low = 0 then (0.0001 : ℚ) else r.high - r.low) =
      (r.current_price - r.low - (r.high - r.current_price)) / 0.0001
    rw [if_pos hz]
  · intro n
    split_ifs with h
    · norm_num
    · exact h
  · intro p
    unfold mfiVal
    rw [if_pos rfl]

/-- Witness for `ad_mfi_total_and_epsilon` on a flat day (high = low = 5). -/
theorem ad_mfi_total_and_epsilon_witness :
    ((⟨0, 5, 5, 5, 100⟩ : PriceRow).high = (⟨0, 5, 5, 5, 100⟩ : PriceRow).low) ∧
    clvOf ⟨0, 5, 5, 5, 100⟩ =
      (((⟨0, 5, 5, 5, 100⟩ : PriceRow).current_price -
          (⟨0, 5, 5, 5, 100⟩ : PriceRow).low) -
        ((⟨0, 5, 5, 5, 100⟩ : PriceRow).high -
          (⟨0, 5, 5, 5, 100⟩ : PriceRow).current_price)) / 0.0001 :=
  ⟨rfl, ad_mfi_total_and_epsilon.2.2.1 ⟨0, 5, 5, 5, 100⟩ rfl⟩

/-! ## The composite screener's join and pre-filter (C8) -/

/-- A row of the volume-analysis table as read by the screener (only the
columns `run_screening` consults are modelled). -/
structure VolRow where
  ticker : String
  supply_demand_score : ℚ
deriving DecidableEq

/-- A row of the 13F holdings table as read by the screener. -/
structure HoldRow where
  ticker : String
  institutional_score : ℚ
deriving DecidableEq

/-- The scored output row built inside `run_screening`'s loop (the columns
the membership claim needs). -/
structure ScreenRec where
  ticker : String
  composite_score : ℚ
  grade : String
  sd_score : ℚ
  inst_score : ℚ

/-- `smart_money_screener_v2.py`, lines 463–532, `run_screening`: inner
join of the volume and holdings tables on `ticker` (pandas `merge` with
`how='inner'` pairs every matching row), pre-filter at
`supply_demand_score >= 50`, per-ticker enrichment (the yfinance-backed
technical/fundamental/analyst/relative-strength scores are parameters),
composite scoring, and the final sort by composite score descending. -/
def run_screening (vol : List VolRow) (hold : List HoldRow)
    (tech fund analyst rs : String → ℚ) : List ScreenRec :=
  ((((vol.flatMap fun v =>
        (hold.filter fun h => h.ticker == v.ticker).map fun h => (v, h)).filter
      fun p => decide (50 ≤ p.1.supply_demand_score)).map fun p =>
        { ticker := p.1.ticker
          composite_score := (calculate_composite_score
            (some p.1.supply_demand_score) (some p.2.institutional_score)
            (some (tech p.1.ticker)) (some (fund p.1.ticker))
            (some (analyst p.1.ticker)) (some (rs p.1.ticker))).1
          grade := (calculate_composite_score
            (some p.1.supply_demand_score) (some p.2.institutional_score)
            (some (tech p.1.ticker)) (some (fund p.1.ticker))
            (some (analyst p.1.ticker)) (some (rs p.1.ticker))).2
          sd_score := p.1.supply_demand_score
          inst_score := p.2.institutional_score }).mergeSort
    fun a b => decide (b.composite_score ≤ a.composite_score))

/-- C8: a ticker appears in the composite screener's output iff it appears
in both the volume table and the holdings table (inner join) with a
supply/demand score of at least 50; tickers below 50 or missing from
either table are absent entirely. -/
theorem screening_inclusion_iff (vol : List VolRow) (hold : List HoldRow)
    (tech fund analyst rs : String → ℚ) (t : String) :
    (∃ r ∈ run_screening vol hold tech fund analyst rs, r.ticker = t) ↔
      ((∃ v ∈ vol, v.ticker = t ∧ 50 ≤ v.supply_demand_score) ∧
        ∃ h ∈ hold, h.ticker = t) := by
  unfold run_screening
  constructor
  · rintro ⟨r, hr, rt⟩
    rw [List.mem_mergeSort] at hr
    obtain ⟨p, hp, rfl⟩ := List.mem_map.mp hr
    obtain ⟨hpmem, hple⟩ := List.mem_filter.mp hp
    obtain ⟨v, hv, hph⟩ := List.mem_flatMap.mp hpmem
    obtain ⟨h, hh, rfl⟩ := List.mem_map.mp hph
    obtain ⟨hhmem, hhbeq⟩ := List.mem_filter.mp hh
    have hteq : h.ticker = v.ticker := by simpa using hhbeq
    have hvt : v.ticker = t := rt
    refine ⟨⟨v, hv, hvt, ?_⟩, ⟨h, hhmem, hteq.trans hvt⟩⟩
    simpa using hple
  · rintro ⟨⟨v, hv, hvt, hvsd⟩, ⟨h, hh, hht⟩⟩
    have hmem : (v, h) ∈ (vol.flatMap fun v =>
        (hold.filter fun h => h.ticker == v.ticker).map fun h => (v, h)).filter
          fun p => decide (50 ≤ p.1.supply_demand_score) :=
      List.mem_filter.mpr
        ⟨List.mem_flatMap.mpr ⟨v, hv, List.mem_map.mpr
            ⟨h, List.mem_filter.mpr ⟨hh, by simp [hht, hvt]⟩, rfl⟩⟩,
          by simpa using hvsd⟩
    exact ⟨_, List.mem_mergeSort.mpr (List.mem_map.mpr ⟨(v, h), hmem, rfl⟩), hvt⟩

end Autostock
